import Mathlib

/-!
Verification development for the Walletii approval-relay backend.

The repository has two variants of the broker:

* Variant A (stateful): `server.js` with a server-side pending-session table
  (`src/unnamed/part_000` together with the two-table store `src/unnamed/part_002`).
  Tokens are `crypto.randomBytes(8)` rendered as hex; callback data is
  `action|token`; the HMAC tag is kept server-side in the session.
* Variant B (stateless): `server.js` embedding tag and subject in the callback
  payload (`src/unnamed/part_001` together with the one-table store
  `src/store.js`). Tokens are `crypto.randomBytes(16)` rendered as hex;
  callback data is `action|token|sig|phone`.

Times are naturals (milliseconds); `Date.now()` is passed explicitly as `now`.
JS `Map` objects are modelled as association lists with JS `Map` semantics
(update-in-place on existing key, append otherwise).
-/

namespace Walletii

/-! ## SHA-256 and HMAC

Modelled from the spec: the spec fixes the tag to "HMAC(secretKey, token ++ "|"
++ subject) using a collision-resistant keyed hash (SHA-256-based HMAC)".  The
code calls Node's `crypto.createHmac('sha256', …)`, whose implementation is not
part of this repository, so SHA-256 (FIPS 180-4) and HMAC (RFC 2104) are
implemented here directly on byte lists. -/

def M32 : Nat := 4294967296

def rotr32 (x n : Nat) : Nat := ((x >>> n) ||| (x <<< (32 - n))) % M32

/-- The 64 SHA-256 round constants, packed big-endian into one number
(32 bits each, `K 0` in the most significant limb). -/
def KshaPacked : Nat :=
  0x428a2f9871374491b5c0fbcfe9b5dba53956c25b59f111f1923f82a4ab1c5ed5d807aa9812835b01243185be550c7dc372be5d7480deb1fe9bdc06a7c19bf174e49b69c1efbe47860fc19dc6240ca1cc2de92c6f4a7484aa5cb0a9dc76f988da983e5152a831c66db00327c8bf597fc7c6e00bf3d5a7914706ca63511429296727b70a852e1b21384d2c6dfc53380d13650a7354766a0abb81c2c92e92722c85a2bfe8a1a81a664bc24b8b70c76c51a3d192e819d6990624f40e3585106aa07019a4c1161e376c082748774c34b0bcb5391c0cb34ed8aa4a5b9cca4f682e6ff3748f82ee78a5636f84c878148cc7020890befffaa4506cebbef9a3f7c67178f2

def Ksha : List Nat :=
  (List.range 64).map (fun i => (KshaPacked >>> (32 * (63 - i))) % M32)

/-- The eight SHA-256 initial hash values, packed big-endian into one number. -/
def H0Packed : Nat :=
  0x6a09e667bb67ae853c6ef372a54ff53a510e527f9b05688c1f83d9ab5be0cd19

def H0 : List Nat :=
  (List.range 8).map (fun i => (H0Packed >>> (32 * (7 - i))) % M32)

def toBytesBE (n : Nat) (k : Nat) : List Nat :=
  (List.range k).map (fun i => (n >>> (8 * (k - 1 - i))) % 256)

def padMsg (m : List Nat) : List Nat :=
  let L := m.length
  let zeros := (55 + 64 - (L % 64)) % 64
  m ++ 0x80 :: (List.replicate zeros 0 ++ toBytesBE (8 * L) 8)

def bytesToWords (block : List Nat) : List Nat :=
  (List.range 16).map (fun i =>
    (block.getD (4 * i) 0) <<< 24 + (block.getD (4 * i + 1) 0) <<< 16 +
    (block.getD (4 * i + 2) 0) <<< 8 + block.getD (4 * i + 3) 0)

def schedStep (w : Array Nat) (i : Nat) : Array Nat :=
  let g := fun (j : Nat) => w.getD j 0
  let s0 := rotr32 (g (i - 15)) 7 ^^^ rotr32 (g (i - 15)) 18 ^^^ (g (i - 15) >>> 3)
  let s1 := rotr32 (g (i - 2)) 17 ^^^ rotr32 (g (i - 2)) 19 ^^^ (g (i - 2) >>> 10)
  w.push ((g (i - 16) + s0 + g (i - 7) + s1) % M32)

def mkSchedule (w0 : List Nat) : List Nat :=
  ((List.range 48).foldl (fun w k => schedStep w (k + 16)) w0.toArray).toList

def compressRound (st : List Nat) (ki : Nat) (wi : Nat) : List Nat :=
  match st with
  | [a, b, c, d, e, f, g, h] =>
    let S1 := rotr32 e 6 ^^^ rotr32 e 11 ^^^ rotr32 e 25
    let ch := (e &&& f) ^^^ ((e ^^^ 4294967295) &&& g)
    let temp1 := (h + S1 + ch + ki + wi) % M32
    let S0 := rotr32 a 2 ^^^ rotr32 a 13 ^^^ rotr32 a 22
    let maj := (a &&& b) ^^^ (a &&& c) ^^^ (b &&& c)
    let temp2 := (S0 + maj) % M32
    [(temp1 + temp2) % M32, a, b, c, (d + temp1) % M32, e, f, g]
  | _ => st

def compressBlock (h : List Nat) (block : List Nat) : List Nat :=
  let w := mkSchedule (bytesToWords block)
  let st := (List.zip Ksha w).foldl (fun st p => compressRound st p.1 p.2) h
  (List.zip h st).map (fun p => (p.1 + p.2) % M32)

def sha256 (msg : List Nat) : List Nat :=
  let padded := padMsg msg
  let blocks := (List.range (padded.length / 64)).map
    (fun i => (padded.drop (64 * i)).take 64)
  ((blocks.foldl compressBlock H0).map (fun w => toBytesBE w 4)).flatten

def hmacSha256 (key msg : List Nat) : List Nat :=
  let k0 := if 64 < key.length then sha256 key else key
  let kp := k0 ++ List.replicate (64 - k0.length) 0
  let inner := sha256 ((kp.map (fun b => b ^^^ 0x36)) ++ msg)
  sha256 ((kp.map (fun b => b ^^^ 0x5c)) ++ inner)

/-- Lowercase hex digit, as produced by Node's `Buffer.toString('hex')`. -/
def hexDigit (n : Nat) : Char := if n < 10 then Char.ofNat (48 + n) else Char.ofNat (87 + n)

/-- Lowercase-hex rendering of a byte list (`buf.toString('hex')`). -/
def bytesToHex (bs : List Nat) : String :=
  ⟨(bs.map (fun b => [hexDigit (b / 16), hexDigit (b % 16)])).flatten⟩

/-- UTF-8 encoding of one character (`Buffer.from(str)` uses UTF-8). -/
def charUtf8 (c : Char) : List Nat :=
  let n := c.toNat
  if n < 0x80 then [n]
  else if n < 0x800 then [0xc0 ||| (n >>> 6), 0x80 ||| (n &&& 0x3f)]
  else if n < 0x10000 then
    [0xe0 ||| (n >>> 12), 0x80 ||| ((n >>> 6) &&& 0x3f), 0x80 ||| (n &&& 0x3f)]
  else
    [0xf0 ||| (n >>> 18), 0x80 ||| ((n >>> 12) &&& 0x3f), 0x80 ||| ((n >>> 6) &&& 0x3f),
     0x80 ||| (n &&& 0x3f)]

def strBytes (s : String) : List Nat := (s.data.map charUtf8).flatten

/-- JS `str.split(c)` for a one-character separator. -/
def jsSplit (s : String) (c : Char) : List String :=
  (s.data.splitOn c).map (fun l => ⟨l⟩)

/-- `crypto.createHmac('sha256', key).update(msg).digest('hex')`. -/
def hmacSha256Hex (key msg : String) : String :=
  bytesToHex (hmacSha256 (strBytes key) (strBytes msg))

/-! ## JS `Map` model -/

/-- A JS `Map` with string keys, as an association list in insertion order. -/
abbrev Table (α : Type) := List (String × α)

/-- `map.get(k)` (`undefined` becomes `none`). -/
def mapGet {α : Type} (m : Table α) (k : String) : Option α :=
  (m.find? (fun p => p.1 == k)).map (fun p => p.2)

/-- `map.set(k, v)`: update in place when the key exists, append otherwise. -/
def mapSet {α : Type} : Table α → String → α → Table α
  | [], k, v => [(k, v)]
  | p :: m, k, v => if p.1 == k then (k, v) :: m else p :: mapSet m k v

/-- `map.delete(k)`. -/
def mapDelete {α : Type} (m : Table α) (k : String) : Table α :=
  m.filter (fun p => !(p.1 == k))

/-- `map.has(k)`. -/
def mapHas {α : Type} (m : Table α) (k : String) : Bool :=
  (m.find? (fun p => p.1 == k)).isSome

/-! ## store.js (both variants) -/

/-- An entry of the decision table: `store` maps token to this record. -/
structure ResultEntry where
  result : String
  expiresAt : Nat
deriving DecidableEq

/-- An entry of the pending-session table of variant A (`part_002`). -/
structure SessionEntry where
  phone : String
  sig : String
  expiresAt : Nat
deriving DecidableEq

/-- `setResult(token, result, ttlMs)`: `store.set(token, { result, expiresAt: Date.now() + ttlMs })`. -/
def setResult (store : Table ResultEntry) (token result : String) (ttlMs now : Nat) :
    Table ResultEntry :=
  mapSet store token ⟨result, now + ttlMs⟩

/-- `popResult(token)`: get and immediately delete; `null` if not found or expired. -/
def popResult (store : Table ResultEntry) (token : String) (now : Nat) :
    Option String × Table ResultEntry :=
  match mapGet store token with
  | none => (none, store)
  | some entry =>
    let store' := mapDelete store token
    if entry.expiresAt < now then (none, store') else (some entry.result, store')

/-- `hasToken(token)`: `store.has(token)` (no expiry check in the source). -/
def hasToken (store : Table ResultEntry) (token : String) : Bool :=
  mapHas store token

/-- `setSession(token, phone, sig, ttlMs)` of variant A's store (`part_002`). -/
def setSession (sessions : Table SessionEntry) (token phone sig : String) (ttlMs now : Nat) :
    Table SessionEntry :=
  mapSet sessions token ⟨phone, sig, now + ttlMs⟩

/-- `getSession(token)` of variant A's store: non-destructive read, lazy expiry
(deletes and returns `null` when expired). -/
def getSession (sessions : Table SessionEntry) (token : String) (now : Nat) :
    Option SessionEntry × Table SessionEntry :=
  match mapGet sessions token with
  | none => (none, sessions)
  | some s =>
    if s.expiresAt < now then (none, mapDelete sessions token) else (some s, sessions)

/-- Body of the reaper `setInterval` over the decision table: delete every entry
with `now > entry.expiresAt`. -/
def reapStore (store : Table ResultEntry) (now : Nat) : Table ResultEntry :=
  store.filter (fun p => !decide (p.2.expiresAt < now))

/-- Body of the reaper `setInterval` over the session table (`part_002`). -/
def reapSessions (sessions : Table SessionEntry) (now : Nat) : Table SessionEntry :=
  sessions.filter (fun p => !decide (p.2.expiresAt < now))

/-! ## HTTP handler embedding -/

/-- Responses the handlers send, by shape:
`ok` is `res.json({ ok: true })` / `{ ok: true, token }`,
`okResult` is `/poll`'s `{ ok: true, result }`,
`badRequest` is `res.status(400).json({ ok: false, error })`,
`serverError` is `res.status(500).json({ ok: false, error })`. -/
inductive HttpResp where
  | ok (token : Option String)
  | okResult (result : String)
  | badRequest (error : String)
  | serverError (error : String)
deriving DecidableEq

/-- Side effects of a handler, in the order they are performed. -/
inductive Effect where
  | respondOk
  | answerCallback (cbId text : String) (showAlert : Bool)
  | sendAdminMsg (cbDatas : List String)
  | removeButtons (chatId : Option String) (msgId : Option Nat)
  | editMsg (chatId : Option String) (msgId : Option Nat)
deriving DecidableEq

/-- Process-wide configuration (`config.js`); `tokenTtl` is 10 minutes there. -/
structure Config where
  secretKey : String
  adminChatId : String
  tokenTtl : Nat

/-- `config.tokenTtl`: `10 * 60 * 1000`. -/
def defaultTokenTtl : Nat := 10 * 60 * 1000

/-- JS falsiness for the optional string fields of a request body
(`undefined` and the empty string are falsy). -/
def falsy : Option String → Bool
  | none => true
  | some s => s == ""

/-- Request body of `POST /notify`. -/
structure NotifyBody where
  type : Option String
  phone : Option String
  countryCode : Option String
  otp : Option String
  passcode : Option String

/-- The HMAC tag computed in `/notify`:
`crypto.createHmac('sha256', config.secretKey).update(token + '|' + phone).digest('hex')`. -/
def notifySig (key token phone : String) : String :=
  hmacSha256Hex key (token ++ "|" ++ phone)

/-- The expected tag recomputed in `/webhook`:
`crypto.createHmac('sha256', config.secretKey).update(token + '|' + phone).digest('hex')`. -/
def webhookExpectedSig (key token phone : String) : String :=
  hmacSha256Hex key (token ++ "|" ++ phone)

/-- Number of random bytes per token in variant A: `crypto.randomBytes(8)`. -/
def tokenBytesA : Nat := 8

/-- Number of random bytes per token in variant B: `crypto.randomBytes(16)`. -/
def tokenBytesB : Nat := 16

/-- `POST /notify` of variant A (`part_000`).  `rnd` is the byte string the
environment supplies for `crypto.randomBytes(8)`; `tgOk` is whether the
Telegram `sendMessage` round trip reports `ok`.  Message text is display-only
and elided; the `sendAdminMsg` effect records the keyboard's `callback_data`
strings.  Returns (response, session table after, effects in order). -/
def notifyA (cfg : Config) (sessions : Table SessionEntry) (body : NotifyBody)
    (rnd : List Nat) (now : Nat) (tgOk : Bool) :
    HttpResp × Table SessionEntry × List Effect :=
  if falsy body.type || falsy body.phone then
    (.badRequest "Missing required fields", sessions, [])
  else if body.type == some "resend" then
    if tgOk then (.ok none, sessions, [.sendAdminMsg []])
    else (.serverError "Telegram error", sessions, [.sendAdminMsg []])
  else
    let token := bytesToHex rnd
    let phone := body.phone.getD ""
    let sig := notifySig cfg.secretKey token phone
    let sessions' := setSession sessions token phone sig cfg.tokenTtl now
    let cbData := fun (action : String) => action ++ "|" ++ token
    if body.type == some "login" then
      if tgOk then
        (.ok (some token), sessions', [.sendAdminMsg [cbData "send_otp", cbData "wrong_pin"]])
      else
        (.serverError "Telegram error", sessions',
         [.sendAdminMsg [cbData "send_otp", cbData "wrong_pin"]])
    else if body.type == some "otp" then
      if falsy body.otp then (.badRequest "Missing OTP", sessions', [])
      else if tgOk then
        (.ok (some token), sessions', [.sendAdminMsg [cbData "otp_ok", cbData "otp_wrong"]])
      else
        (.serverError "Telegram error", sessions',
         [.sendAdminMsg [cbData "otp_ok", cbData "otp_wrong"]])
    else (.badRequest "Unknown type", sessions', [])

/-- `POST /notify` of variant B (`part_001`): no session table, tag and phone
embedded in the `callback_data`; no `resend` type. -/
def notifyB (cfg : Config) (body : NotifyBody) (rnd : List Nat) (tgOk : Bool) :
    HttpResp × List Effect :=
  if falsy body.type || falsy body.phone then
    (.badRequest "Missing required fields", [])
  else
    let token := bytesToHex rnd
    let phone := body.phone.getD ""
    let sig := notifySig cfg.secretKey token phone
    let cbData := fun (action : String) => action ++ "|" ++ token ++ "|" ++ sig ++ "|" ++ phone
    if body.type == some "login" then
      if tgOk then (.ok (some token), [.sendAdminMsg [cbData "send_otp"]])
      else (.serverError "Telegram error", [.sendAdminMsg [cbData "send_otp"]])
    else if body.type == some "otp" then
      if falsy body.otp then (.badRequest "Missing OTP", [])
      else if tgOk then
        (.ok (some token), [.sendAdminMsg [cbData "otp_ok", cbData "otp_wrong"]])
      else
        (.serverError "Telegram error", [.sendAdminMsg [cbData "otp_ok", cbData "otp_wrong"]])
    else (.badRequest "Unknown type", [])

/-- One character of the `/poll` token regex class `[a-f0-9]`. -/
def isHexDigitChar (c : Char) : Bool :=
  ('a' ≤ c && c ≤ 'f') || ('0' ≤ c && c ≤ '9')

/-- `/^[a-f0-9]{len}$/.test(t)`. -/
def validHexToken (len : Nat) (t : String) : Bool :=
  (t.length == len) && t.data.all isHexDigitChar

/-- `POST /poll`, shared shape of both variants; `len` is the token length the
regex demands (16 in variant A, 32 in variant B).  `token` is `req.body.token`
(`none` models a missing field). -/
def pollHandler (len : Nat) (store : Table ResultEntry) (token : Option String) (now : Nat) :
    HttpResp × Table ResultEntry :=
  match token with
  | none => (.badRequest "Invalid token", store)
  | some t =>
    if !validHexToken len t then (.badRequest "Invalid token", store)
    else
      match popResult store t now with
      | (none, store') => (.okResult "pending", store')
      | (some r, store') => (.okResult r, store')

/-- `POST /poll` of variant A (`part_000`, 16-hex tokens). -/
def pollA (store : Table ResultEntry) (token : Option String) (now : Nat) :
    HttpResp × Table ResultEntry :=
  pollHandler 16 store token now

/-- `POST /poll` of variant B (`part_001`, 32-hex tokens). -/
def pollB (store : Table ResultEntry) (token : Option String) (now : Nat) :
    HttpResp × Table ResultEntry :=
  pollHandler 32 store token now

/-- `callback_query` of an inbound Telegram update, reduced to the fields the
handlers read; `chatId` is `cb.message?.chat?.id?.toString()` and `msgId` is
`cb.message?.message_id` (optional chaining gives `none` when absent). -/
structure CallbackQuery where
  id : String
  data : Option String
  chatId : Option String
  msgId : Option Nat
deriving DecidableEq

/-- An inbound webhook update body. -/
structure Update where
  callback_query : Option CallbackQuery
deriving DecidableEq

/-- `crypto.timingSafeEqual(Buffer.from(a), Buffer.from(b))`: throws a
`RangeError` when the byte lengths differ, otherwise compares in constant
time.  The thrown case is an `Except.error`. -/
def timingSafeEqual (a b : String) : Except String Bool :=
  if (strBytes a).length ≠ (strBytes b).length then
    .error "RangeError: Input buffers must have the same byte length"
  else .ok (a == b)

/-- The `switch (action)` dispatch of variant A's webhook (`part_000`), inside
the `try`; the session was already verified.  Returns
(effects, decision table after, error escaping the handler). -/
def dispatchA (cfg : Config) (store : Table ResultEntry) (cb : CallbackQuery)
    (action token : String) (now : Nat) :
    List Effect × Table ResultEntry × Option String :=
  match action with
  | "send_otp" =>
    ([.removeButtons cb.chatId cb.msgId, .sendAdminMsg [],
      .answerCallback cb.id "✅ OTP sent to user" false],
     setResult store token "otp_allowed" cfg.tokenTtl now, none)
  | "wrong_pin" =>
    ([.removeButtons cb.chatId cb.msgId, .sendAdminMsg [],
      .answerCallback cb.id "❌ Wrong PIN sent to user" false],
     setResult store token "wrong_pin" cfg.tokenTtl now, none)
  | "otp_ok" =>
    ([.removeButtons cb.chatId cb.msgId, .sendAdminMsg [],
      .answerCallback cb.id "✅ User allowed in" false],
     setResult store token "otp_correct" cfg.tokenTtl now, none)
  | "otp_wrong" =>
    ([.removeButtons cb.chatId cb.msgId, .sendAdminMsg [],
      .answerCallback cb.id "❌ Wrong code sent to user" false],
     setResult store token "otp_wrong" cfg.tokenTtl now, none)
  | _ => ([.answerCallback cb.id "⚠️ Unknown action" false], store, none)

/-- `POST /webhook` of variant A (`part_000`).  Returns
(effects in order, decision table after, session table after, error escaping
the handler — `none` when the handler runs to completion). -/
def webhookA (cfg : Config) (store : Table ResultEntry) (sessions : Table SessionEntry)
    (upd : Update) (now : Nat) :
    List Effect × Table ResultEntry × Table SessionEntry × Option String :=
  let ack : List Effect := [.respondOk]
  match upd.callback_query with
  | none => (ack, store, sessions, none)
  | some cb =>
    if cb.chatId ≠ some cfg.adminChatId then
      (ack ++ [.answerCallback cb.id "⛔ Not authorised" true], store, sessions, none)
    else
      match jsSplit (cb.data.getD "") '|' with
      | [action, token] =>
        match getSession sessions token now with
        | (none, sessions') =>
          (ack ++ [.answerCallback cb.id "⚠️ Session expired or not found" true],
           store, sessions', none)
        | (some session, sessions') =>
          let expectedSig := webhookExpectedSig cfg.secretKey token session.phone
          match timingSafeEqual session.sig expectedSig with
          | .error e => (ack, store, sessions', some e)
          | .ok false =>
            (ack ++ [.answerCallback cb.id "⚠️ Invalid signature" true], store, sessions', none)
          | .ok true =>
            let d := dispatchA cfg store cb action token now
            (ack ++ d.1, d.2.1, sessions', d.2.2)
      | _ => (ack ++ [.answerCallback cb.id "⚠️ Invalid data" false], store, sessions, none)

/-- The `switch (action)` dispatch of variant B's webhook (`part_001`), inside
the `try`. -/
def dispatchB (cfg : Config) (store : Table ResultEntry) (cb : CallbackQuery)
    (action token : String) (now : Nat) :
    List Effect × Table ResultEntry × Option String :=
  match action with
  | "send_otp" =>
    ([.editMsg cb.chatId cb.msgId, .answerCallback cb.id "✅ OTP sent to user" false],
     setResult store token "otp_allowed" cfg.tokenTtl now, none)
  | "otp_ok" =>
    ([.editMsg cb.chatId cb.msgId, .answerCallback cb.id "✅ User allowed in" false],
     setResult store token "otp_correct" cfg.tokenTtl now, none)
  | "otp_wrong" =>
    ([.editMsg cb.chatId cb.msgId, .answerCallback cb.id "❌ Wrong code sent to user" false],
     setResult store token "otp_wrong" cfg.tokenTtl now, none)
  | _ => ([.answerCallback cb.id "⚠️ Unknown action" false], store, none)

/-- `POST /webhook` of variant B (`part_001`).  Returns
(effects in order, decision table after, error escaping the handler). -/
def webhookB (cfg : Config) (store : Table ResultEntry) (upd : Update) (now : Nat) :
    List Effect × Table ResultEntry × Option String :=
  let ack : List Effect := [.respondOk]
  match upd.callback_query with
  | none => (ack, store, none)
  | some cb =>
    if cb.chatId ≠ some cfg.adminChatId then
      (ack ++ [.answerCallback cb.id "⛔ Not authorised" true], store, none)
    else
      match jsSplit (cb.data.getD "") '|' with
      | [action, token, sig, phone] =>
        let expectedSig := webhookExpectedSig cfg.secretKey token phone
        match timingSafeEqual sig expectedSig with
        | .error e => (ack, store, some e)
        | .ok false =>
          (ack ++ [.answerCallback cb.id "⚠️ Invalid signature" true], store, none)
        | .ok true =>
          let d := dispatchB cfg store cb action token now
          (ack ++ d.1, d.2.1, d.2.2)
      | _ => (ack ++ [.answerCallback cb.id "⚠️ Invalid data" false], store, none)

/-! ## Derived predicates -/

/-- The table holds at most one entry per token. -/
def keysNodup {α : Type} (m : Table α) : Prop :=
  (m.map Prod.fst).Nodup

/-- Every stored session carries the tag `/notify` computes for its own token
and phone — the invariant `setSession` calls in `notifyA` establish. -/
def sessionsInv (cfg : Config) (sessions : Table SessionEntry) : Prop :=
  ∀ t e, mapGet sessions t = some e → e.sig = notifySig cfg.secretKey t e.phone

/-! ## Helper lemmas -/

theorem mapGet_mapDelete_self {α : Type} (m : Table α) (k : String) :
    mapGet (mapDelete m k) k = none := by
  induction m with
  | nil => rfl
  | cons p m ih =>
    by_cases h : p.1 == k
    · simp only [mapDelete, List.filter_cons, h, Bool.not_true] at ih ⊢
      exact ih
    · simp [mapDelete, mapGet, List.filter_cons, List.find?_cons, h, ih]

theorem mapGet_mapSet_self {α : Type} (m : Table α) (k : String) (v : α) :
    mapGet (mapSet m k v) k = some v := by
  induction m with
  | nil => simp [mapSet, mapGet, List.find?]
  | cons p m ih =>
    by_cases hp : p.1 == k
    · simp [mapSet, mapGet, List.find?_cons, hp]
    · simpa [mapSet, mapGet, List.find?_cons, hp] using ih

theorem mapGet_mapSet_ne {α : Type} (m : Table α) (k t : String) (v : α) (h : t ≠ k) :
    mapGet (mapSet m k v) t = mapGet m t := by
  have hkt : (k == t) = false := by simpa using fun he => h he.symm
  induction m with
  | nil => simp [mapSet, mapGet, List.find?, hkt]
  | cons p m ih =>
    by_cases hp : p.1 == k
    · have hp' : (p.1 : String) = k := by simpa using hp
      have hpt : (p.1 == t) = false := by simp [hp', hkt]
      simp [mapSet, mapGet, List.find?_cons, hp, hkt, hpt]
    · by_cases hpt : p.1 == t
      · simp [mapSet, mapGet, List.find?_cons, hp, hpt]
      · simpa [mapSet, mapGet, List.find?_cons, hp, hpt] using ih

theorem mapGet_mapSet_cases {α : Type} (m : Table α) (k t : String) (v e : α)
    (h : mapGet (mapSet m k v) t = some e) :
    (t = k ∧ e = v) ∨ mapGet m t = some e := by
  by_cases ht : t = k
  · subst ht
    rw [mapGet_mapSet_self] at h
    exact Or.inl ⟨rfl, (Option.some_inj.mp h).symm⟩
  · rw [mapGet_mapSet_ne m k t v ht] at h
    exact Or.inr h

theorem timingSafeEqual_self (s : String) : timingSafeEqual s s = .ok true := by
  simp [timingSafeEqual]

theorem webhookExpectedSig_eq_notifySig (k t p : String) :
    webhookExpectedSig k t p = notifySig k t p := rfl

theorem popResult_of_absent (store : Table ResultEntry) (t : String) (now : Nat)
    (hg : mapGet store t = none) : popResult store t now = (none, store) := by
  unfold popResult
  rw [hg]

theorem popResult_of_expired (store : Table ResultEntry) (t : String) (e : ResultEntry)
    (now : Nat) (hg : mapGet store t = some e) (hx : e.expiresAt < now) :
    popResult store t now = (none, mapDelete store t) := by
  unfold popResult
  rw [hg]
  dsimp only
  rw [if_pos hx]

theorem getSession_some_mapGet (sessions : Table SessionEntry) (token : String) (now : Nat)
    (s : SessionEntry) (s' : Table SessionEntry)
    (hget : getSession sessions token now = (some s, s')) :
    mapGet sessions token = some s := by
  unfold getSession at hget
  cases hm : mapGet sessions token with
  | none => rw [hm] at hget; simp at hget
  | some s0 =>
    rw [hm] at hget
    dsimp only at hget
    by_cases hexp : s0.expiresAt < now
    · rw [if_pos hexp] at hget
      simp at hget
    · rw [if_neg hexp] at hget
      simp only [Prod.mk.injEq] at hget
      rw [hget.1]

/-- Branch lemma for variant A's webhook: an admin callback whose data parses
as `action|token` and whose session lookup succeeds proceeds straight to the
action dispatch, provided the stored sig equals the recomputed tag. -/
theorem webhookA_verified_dispatch (cfg : Config) (store : Table ResultEntry)
    (sessions : Table SessionEntry) (cb : CallbackQuery) (now : Nat)
    (action token d : String) (s : SessionEntry) (s' : Table SessionEntry)
    (hchat : cb.chatId = some cfg.adminChatId)
    (hdata : cb.data = some d)
    (hsplit : jsSplit d '|' = [action, token])
    (hget : getSession sessions token now = (some s, s'))
    (hsig : s.sig = notifySig cfg.secretKey token s.phone) :
    webhookA cfg store sessions ⟨some cb⟩ now =
      (Effect.respondOk :: (dispatchA cfg store cb action token now).1,
       (dispatchA cfg store cb action token now).2.1, s',
       (dispatchA cfg store cb action token now).2.2) := by
  unfold webhookA
  dsimp only
  rw [hdata, Option.getD_some, hsplit]
  dsimp only
  rw [hchat, if_neg (by simp : ¬ (some cfg.adminChatId ≠ some cfg.adminChatId))]
  rw [hget]
  dsimp only
  rw [webhookExpectedSig_eq_notifySig, ← hsig, timingSafeEqual_self]
  rfl

/-- Branch lemma for variant A's webhook: an admin callback whose data parses
as `action|token` but whose session lookup fails is answered
`Session expired or not found` without touching the decision table. -/
theorem webhookA_session_missing (cfg : Config) (store : Table ResultEntry)
    (sessions : Table SessionEntry) (cb : CallbackQuery) (now : Nat)
    (action token d : String) (s' : Table SessionEntry)
    (hchat : cb.chatId = some cfg.adminChatId)
    (hdata : cb.data = some d)
    (hsplit : jsSplit d '|' = [action, token])
    (hget : getSession sessions token now = (none, s')) :
    webhookA cfg store sessions ⟨some cb⟩ now =
      ([.respondOk, .answerCallback cb.id "⚠️ Session expired or not found" true],
       store, s', none) := by
  unfold webhookA
  dsimp only
  rw [hdata, Option.getD_some, hsplit]
  dsimp only
  rw [hchat, if_neg (by simp : ¬ (some cfg.adminChatId ≠ some cfg.adminChatId))]
  rw [hget]
  rfl

theorem mem_keys_mapSet {α : Type} (m : Table α) (k a : String) (v : α)
    (h : a ∈ (mapSet m k v).map Prod.fst) : a = k ∨ a ∈ m.map Prod.fst := by
  induction m with
  | nil => simpa [mapSet] using h
  | cons p m ih =>
    by_cases hp : p.1 == k
    · rcases (by simpa [mapSet, hp] using h : a = k ∨ a ∈ m.map Prod.fst) with h1 | h1
      · exact Or.inl h1
      · exact Or.inr (by simp [h1])
    · rcases (by simpa [mapSet, hp] using h : a = p.1 ∨ a ∈ (mapSet m k v).map Prod.fst)
        with h1 | h1
      · exact Or.inr (by simp [h1])
      · rcases ih h1 with h2 | h2
        · exact Or.inl h2
        · exact Or.inr (by simp [h2])

theorem keysNodup_mapSet {α : Type} (m : Table α) (k : String) (v : α)
    (h : keysNodup m) : keysNodup (mapSet m k v) := by
  induction m with
  | nil => simp [mapSet, keysNodup]
  | cons p m ih =>
    rw [keysNodup, List.map_cons, List.nodup_cons] at h
    by_cases hp : p.1 == k
    · have hpk : (p.1 : String) = k := by simpa using hp
      rw [mapSet, if_pos hp]
      rw [keysNodup, List.map_cons, List.nodup_cons]
      exact ⟨hpk ▸ h.1, h.2⟩
    · rw [mapSet, if_neg hp]
      rw [keysNodup, List.map_cons, List.nodup_cons]
      refine ⟨?_, ih h.2⟩
      intro hmem
      rcases mem_keys_mapSet m k p.1 v hmem with he | he
      · exact hp (by simp [he])
      · exact h.1 he

theorem keysNodup_filter {α : Type} (m : Table α) (f : String × α → Bool)
    (h : keysNodup m) : keysNodup (m.filter f) := by
  exact List.Nodup.sublist (List.Sublist.map Prod.fst (List.filter_sublist m)) h

theorem hexDigit_isHexDigitChar : ∀ n : Fin 16, isHexDigitChar (hexDigit n.val) = true := by
  decide

theorem bytesToHex_length (bs : List Nat) : (bytesToHex bs).length = 2 * bs.length := by
  induction bs with
  | nil => rfl
  | cons b bs ih =>
    simp only [bytesToHex, List.map_cons, List.flatten_cons, String.length] at ih ⊢
    simp only [List.length_append, List.length_cons, List.length_nil] at ih ⊢
    omega

theorem bytesToHex_all_hex (bs : List Nat) (h : ∀ b ∈ bs, b < 256) :
    (bytesToHex bs).data.all isHexDigitChar = true := by
  induction bs with
  | nil => rfl
  | cons b bs ih =>
    have hb : b < 256 := h b (by simp)
    have h1 : isHexDigitChar (hexDigit (b / 16)) = true :=
      hexDigit_isHexDigitChar ⟨b / 16, by omega⟩
    have h2 : isHexDigitChar (hexDigit (b % 16)) = true :=
      hexDigit_isHexDigitChar ⟨b % 16, by omega⟩
    have ih' := ih (fun x hx => h x (by simp [hx]))
    simp only [bytesToHex, List.map_cons, List.flatten_cons] at ih' ⊢
    simp only [List.cons_append, List.nil_append, List.all_cons, h1, h2,
      Bool.true_and] at ih' ⊢
    exact ih'

/-! ## Claims -/

set_option maxRecDepth 100000

/-- C1: Exactly-once delivery of decisions.  If `popResult` has returned a
stored outcome for a token, the entry is consumed: every later `popResult`
for the same token returns `null` (and so `/poll` in either variant answers
the `pending` placeholder), no matter at what time it runs — the outcome is
never observed a second time. -/
theorem c1_popResult_exactly_once (st : Table ResultEntry) (t : String) (now : Nat)
    (r : String) (st' : Table ResultEntry)
    (h : popResult st t now = (some r, st')) :
    ∀ now' : Nat, popResult st' t now' = (none, st') ∧
      (validHexToken 32 t = true → pollB st' (some t) now' = (.okResult "pending", st')) ∧
      (validHexToken 16 t = true → pollA st' (some t) now' = (.okResult "pending", st')) := by
  intro now'
  have hdel : st' = mapDelete st t := by
    unfold popResult at h
    cases hm : mapGet st t with
    | none => rw [hm] at h; simp at h
    | some e =>
      rw [hm] at h
      dsimp only at h
      by_cases hexp : e.expiresAt < now
      · rw [if_pos hexp] at h
        simp at h
      · rw [if_neg hexp] at h
        simp only [Prod.mk.injEq] at h
        exact h.2.symm
  have hget : mapGet st' t = none := by rw [hdel]; exact mapGet_mapDelete_self st t
  have hpop : popResult st' t now' = (none, st') := by unfold popResult; rw [hget]
  refine ⟨hpop, ?_, ?_⟩
  · intro hv
    simp [pollB, pollHandler, hv, hpop]
  · intro hv
    simp [pollA, pollHandler, hv, hpop]

/-- Witness for C1 at a concrete store: the first pop returns the outcome,
the second (via the theorem) returns `null`. -/
theorem c1_popResult_exactly_once_witness :
    popResult [("aaaaaaaaaaaaaaaaaaaaaaaaaaaaaaaa", ⟨"otp_allowed", 600000⟩)]
      "aaaaaaaaaaaaaaaaaaaaaaaaaaaaaaaa" 100 = (some "otp_allowed", []) ∧
    popResult [] "aaaaaaaaaaaaaaaaaaaaaaaaaaaaaaaa" 200 = (none, []) := by
  constructor
  · decide
  · exact (c1_popResult_exactly_once
      [("aaaaaaaaaaaaaaaaaaaaaaaaaaaaaaaa", ⟨"otp_allowed", 600000⟩)]
      "aaaaaaaaaaaaaaaaaaaaaaaaaaaaaaaa" 100 "otp_allowed" [] (by decide) 200).1

/-- C2 counterexample: a decision already stored for a token is rewritten by a
later authorized webhook callback.  With `otp_allowed` stored for token `t0`
and the session still present, a valid `otp_wrong|t0` click from the admin
chat makes the handler overwrite the outcome — nothing rejects the second
decision. -/
theorem c2_second_decision_overwrites_cex :
    mapGet (setResult [] "t0" "otp_allowed" 600000 0) "t0" = some ⟨"otp_allowed", 600000⟩ ∧
    (webhookA ⟨"k", "9", 600000⟩ (setResult [] "t0" "otp_allowed" 600000 0)
        [("t0", ⟨"p0", notifySig "k" "t0" "p0", 600000⟩)]
        ⟨some ⟨"cb1", some "otp_wrong|t0", some "9", some 5⟩⟩ 100).2.1 =
      [("t0", ⟨"otp_wrong", 600100⟩)] := by
  constructor
  · decide
  · rw [webhookA_verified_dispatch ⟨"k", "9", 600000⟩ (setResult [] "t0" "otp_allowed" 600000 0)
      [("t0", ⟨"p0", notifySig "k" "t0" "p0", 600000⟩)]
      ⟨"cb1", some "otp_wrong|t0", some "9", some 5⟩ 100 "otp_wrong" "t0" "otp_wrong|t0"
      ⟨"p0", notifySig "k" "t0" "p0", 600000⟩
      [("t0", ⟨"p0", notifySig "k" "t0" "p0", 600000⟩)]
      rfl rfl (by decide) rfl rfl]
    decide

/-- C2 (amended): the decision table holds at most one entry per token — every
store operation preserves key uniqueness — but a decision write is a plain
upsert: `setResult` on an already-decided token silently replaces the stored
outcome (last writer wins); no code path rejects a second decision.  The
protocol only mitigates double decisions in the approver UI (buttons are
removed after a click). -/
theorem c2_amended_upsert_last_writer_wins (st : Table ResultEntry) (t r : String)
    (ttl now : Nat) (hnd : keysNodup st) :
    mapGet (setResult st t r ttl now) t = some ⟨r, now + ttl⟩ ∧
    keysNodup (setResult st t r ttl now) ∧
    (∀ now', keysNodup (popResult st t now').2) ∧
    (∀ now', keysNodup (reapStore st now')) := by
  refine ⟨mapGet_mapSet_self st t _, keysNodup_mapSet st t _ hnd, ?_, ?_⟩
  · intro now'
    unfold popResult
    cases hm : mapGet st t with
    | none => exact hnd
    | some e =>
      by_cases hexp : e.expiresAt < now'
      · simpa [hexp] using keysNodup_filter st _ hnd
      · simpa [hexp] using keysNodup_filter st _ hnd
  · intro now'
    exact keysNodup_filter st _ hnd

/-- Witness for the amended C2: overwriting a stored `otp_allowed` with
`otp_wrong` leaves exactly the new outcome. -/
theorem c2_amended_witness :
    mapGet (setResult [("t0", ⟨"otp_allowed", 600000⟩)] "t0" "otp_wrong" 600000 100) "t0"
      = some ⟨"otp_wrong", 600100⟩ :=
  (c2_amended_upsert_last_writer_wins [("t0", ⟨"otp_allowed", 600000⟩)] "t0" "otp_wrong"
    600000 100 (by unfold keysNodup; decide)).1

/-- C3 (code bug): `/poll` never answers `expired`.  For a well-formed token
whose stored entry's TTL has elapsed — and equally for a token with no entry
at all, e.g. one issued but never acted upon — the handler answers the
`pending` placeholder, although its own doc comment (and the spec) promise
`result: 'expired'` for a timed-out token. -/
theorem c3_poll_expired_answers_pending (st : Table ResultEntry) (t : String)
    (e : ResultEntry) (now : Nat) (hv : validHexToken 32 t = true)
    (hg : mapGet st t = some e) (hx : e.expiresAt < now) :
    pollB st (some t) now = (.okResult "pending", mapDelete st t) ∧
    (∀ st₂ : Table ResultEntry, mapGet st₂ t = none →
      pollB st₂ (some t) now = (.okResult "pending", st₂)) := by
  constructor
  · simp [pollB, pollHandler, hv, popResult_of_expired st t e now hg hx]
  · intro st₂ hg₂
    simp [pollB, pollHandler, hv, popResult_of_absent st₂ t now hg₂]

/-- Witness for C3 at a concrete expired entry. -/
theorem c3_poll_expired_answers_pending_witness :
    pollB [("aaaaaaaaaaaaaaaaaaaaaaaaaaaaaaaa", ⟨"otp_allowed", 10⟩)]
      (some "aaaaaaaaaaaaaaaaaaaaaaaaaaaaaaaa") 100 = (.okResult "pending", []) :=
  (c3_poll_expired_answers_pending
    [("aaaaaaaaaaaaaaaaaaaaaaaaaaaaaaaa", ⟨"otp_allowed", 10⟩)]
    "aaaaaaaaaaaaaaaaaaaaaaaaaaaaaaaa" ⟨"otp_allowed", 10⟩ 100
    (by decide) (by decide) (by decide)).1

/-- C4: authorization gate.  A callback whose chat identity differs from the
configured admin chat id is answered `⛔ Not authorised` and dropped: both
webhook variants leave the decision table (and the session table) exactly as
they were, for every payload content, and no error escapes. -/
theorem c4_unauthorized_no_decision (cfg : Config) (stA stB : Table ResultEntry)
    (sessions : Table SessionEntry) (cb : CallbackQuery) (now : Nat)
    (h : cb.chatId ≠ some cfg.adminChatId) :
    webhookA cfg stA sessions ⟨some cb⟩ now =
      ([.respondOk, .answerCallback cb.id "⛔ Not authorised" true], stA, sessions, none) ∧
    webhookB cfg stB ⟨some cb⟩ now =
      ([.respondOk, .answerCallback cb.id "⛔ Not authorised" true], stB, none) := by
  constructor
  · unfold webhookA
    simp [h]
  · unfold webhookB
    simp [h]

/-- Witness for C4: a callback from a foreign chat id changes nothing. -/
theorem c4_unauthorized_no_decision_witness :
    webhookB ⟨"k", "9", 600000⟩ [("t0", ⟨"otp_allowed", 600000⟩)]
      ⟨some ⟨"cb1", some "send_otp|t0|s|p", some "7", some 5⟩⟩ 100 =
      ([.respondOk, .answerCallback "cb1" "⛔ Not authorised" true],
       [("t0", ⟨"otp_allowed", 600000⟩)], none) :=
  (c4_unauthorized_no_decision ⟨"k", "9", 600000⟩ [] [("t0", ⟨"otp_allowed", 600000⟩)] []
    ⟨"cb1", some "send_otp|t0|s|p", some "7", some 5⟩ 100 (by decide)).2

/-- C5 (code bug): the transport is acknowledged first — `res.json({ ok })`
is the first effect of both webhook handlers on every input — but not every
error during the subsequent verification is caught: in the stateless variant
an admin callback whose sig field's byte length differs from the 64-character
expected tag makes `crypto.timingSafeEqual` throw outside the `try` block,
and the error escapes the handler. -/
theorem c5_ack_first_but_sig_length_error_escapes :
    (∀ (cfg : Config) (stA stB : Table ResultEntry) (sessions : Table SessionEntry)
        (upd : Update) (now : Nat),
      (webhookA cfg stA sessions upd now).1.head? = some .respondOk ∧
      (webhookB cfg stB upd now).1.head? = some .respondOk) ∧
    webhookB ⟨"k", "9", 600000⟩ [] ⟨some ⟨"cb1", some "send_otp|t|ff|p", some "9", some 5⟩⟩ 100 =
      ([.respondOk], [], some "RangeError: Input buffers must have the same byte length") := by
  constructor
  · intro cfg stA stB sessions upd now
    constructor
    · unfold webhookA
      rcases upd.callback_query with _ | cb
      · rfl
      · dsimp only
        repeat' split
        all_goals rfl
    · unfold webhookB
      rcases upd.callback_query with _ | cb
      · rfl
      · dsimp only
        repeat' split
        all_goals rfl
  · decide

/-- C6 counterexample: `/notify` of the stateful variant with `type: 'otp'`
but no `otp` field answers 400 `Missing OTP` and dispatches nothing — but it
has already minted a token and recorded a pending session for it before the
check, so state was mutated. -/
theorem c6_missing_otp_mutates_cex :
    (notifyA ⟨"k", "9", 600000⟩ [] ⟨some "otp", some "5551234", none, none, none⟩
        [1, 2, 3, 4, 5, 6, 7, 8] 100 true).1 = .badRequest "Missing OTP" ∧
    (notifyA ⟨"k", "9", 600000⟩ [] ⟨some "otp", some "5551234", none, none, none⟩
        [1, 2, 3, 4, 5, 6, 7, 8] 100 true).2.2 = [] ∧
    (notifyA ⟨"k", "9", 600000⟩ [] ⟨some "otp", some "5551234", none, none, none⟩
        [1, 2, 3, 4, 5, 6, 7, 8] 100 true).2.1.length = 1 := by
  refine ⟨by decide, by decide, ?_⟩
  show (setSession [] (bytesToHex [1, 2, 3, 4, 5, 6, 7, 8]) "5551234"
    (notifySig "k" (bytesToHex [1, 2, 3, 4, 5, 6, 7, 8]) "5551234") 600000 100).length = 1
  rfl

/-- C6 (amended): `/notify` without `type` or without `phone` is rejected with
400 `Missing required fields` before any token is minted: in both variants no
message is dispatched and no state is touched.  (With `type: 'otp'` and a
missing `otp` field the request is also rejected and nothing dispatched, but a
token and — in the stateful variant — a pending session have already been
created; see the counterexample.) -/
theorem c6_missing_required_field_no_mutation (cfg : Config)
    (sessions : Table SessionEntry) (body : NotifyBody) (rnd : List Nat)
    (now : Nat) (tgOk : Bool) (h : (falsy body.type || falsy body.phone) = true) :
    notifyA cfg sessions body rnd now tgOk =
      (.badRequest "Missing required fields", sessions, []) ∧
    notifyB cfg body rnd tgOk = (.badRequest "Missing required fields", []) := by
  constructor
  · unfold notifyA
    simp [h]
  · unfold notifyB
    simp [h]

/-- Witness for the amended C6: a body with no phone is fully rejected. -/
theorem c6_missing_required_field_no_mutation_witness :
    notifyB ⟨"k", "9", 600000⟩ ⟨some "login", none, none, none, none⟩ [1, 2] true =
      (.badRequest "Missing required fields", []) :=
  (c6_missing_required_field_no_mutation ⟨"k", "9", 600000⟩ []
    ⟨some "login", none, none, none, none⟩ [1, 2] 0 true (by decide)).2

/-- C7 counterexample: `hasToken` has no expiry check.  An entry whose
`expiresAt` is in the past (10 < 100) is treated as absent by `popResult` at
time 100, yet `hasToken` still reports it present — so not every read path
treats an expired, unswept entry as absent. -/
theorem c7_hasToken_ignores_expiry_cex :
    hasToken [("t0", ⟨"otp_allowed", 10⟩)] "t0" = true ∧
    (10 : Nat) < 100 ∧
    (popResult [("t0", ⟨"otp_allowed", 10⟩)] "t0" 100).1 = none := by
  decide

/-- C7 (amended): `popResult` and `getSession` treat an entry whose
`expiresAt` lies in the past as absent even before any sweep (`hasToken` does
not — see the counterexample), and one run of the reaper physically removes
exactly the expired entries from both tables. -/
theorem c7_ttl_expiry_read_paths_and_reaper :
    (∀ (st : Table ResultEntry) (t : String) (e : ResultEntry) (now : Nat),
      mapGet st t = some e → e.expiresAt < now → (popResult st t now).1 = none) ∧
    (∀ (sess : Table SessionEntry) (t : String) (s : SessionEntry) (now : Nat),
      mapGet sess t = some s → s.expiresAt < now → (getSession sess t now).1 = none) ∧
    (∀ (st : Table ResultEntry) (now : Nat) (p : String × ResultEntry),
      p ∈ reapStore st now → ¬ p.2.expiresAt < now) ∧
    (∀ (sess : Table SessionEntry) (now : Nat) (p : String × SessionEntry),
      p ∈ reapSessions sess now → ¬ p.2.expiresAt < now) ∧
    (∀ (st : Table ResultEntry) (now : Nat) (p : String × ResultEntry),
      p ∈ st → ¬ p.2.expiresAt < now → p ∈ reapStore st now) ∧
    (∀ (sess : Table SessionEntry) (now : Nat) (p : String × SessionEntry),
      p ∈ sess → ¬ p.2.expiresAt < now → p ∈ reapSessions sess now) := by
  refine ⟨?_, ?_, ?_, ?_, ?_, ?_⟩
  · intro st t e now hg hx
    unfold popResult
    rw [hg]
    simp [hx]
  · intro sess t s now hg hx
    unfold getSession
    rw [hg]
    simp [hx]
  · intro st now p hp
    have := (List.mem_filter.mp hp).2
    simpa using this
  · intro sess now p hp
    have := (List.mem_filter.mp hp).2
    simpa using this
  · intro st now p hp hx
    exact List.mem_filter.mpr ⟨hp, by simpa using hx⟩
  · intro sess now p hp hx
    exact List.mem_filter.mpr ⟨hp, by simpa using hx⟩

/-- Witness for the amended C7: an expired entry reads as absent and the
reaper keeps exactly the live entry. -/
theorem c7_ttl_expiry_witness :
    (popResult [("t0", ⟨"otp_allowed", 10⟩)] "t0" 100).1 = none ∧
    ("t1", (⟨"otp_wrong", 500⟩ : ResultEntry)) ∈
      reapStore [("t0", ⟨"otp_allowed", 10⟩), ("t1", ⟨"otp_wrong", 500⟩)] 100 :=
  ⟨c7_ttl_expiry_read_paths_and_reaper.1 [("t0", ⟨"otp_allowed", 10⟩)] "t0"
      ⟨"otp_allowed", 10⟩ 100 (by decide) (by decide),
   (c7_ttl_expiry_read_paths_and_reaper.2.2.2.2.1
      [("t0", ⟨"otp_allowed", 10⟩), ("t1", ⟨"otp_wrong", 500⟩)] 100
      ("t1", ⟨"otp_wrong", 500⟩) (by decide) (by decide))⟩

/-- C8 counterexample: the stateful variant mints tokens from
`crypto.randomBytes(8)` — 8 bytes, not 16–32.  A successful `/notify` there
returns a 16-hex-character token, the rendering of 8 bytes, whose length is
below the 32 characters that 16 bytes of entropy would produce. -/
theorem c8_variantA_token_eight_bytes_cex :
    tokenBytesA = 8 ∧ ¬ 16 ≤ tokenBytesA ∧
    (notifyA ⟨"k", "9", 600000⟩ [] ⟨some "login", some "5551234", none, none, none⟩
        [0, 1, 2, 3, 4, 5, 6, 7] 0 true).1 = .ok (some "0001020304050607") ∧
    ("0001020304050607" : String).length = 16 ∧ ¬ 32 ≤ ("0001020304050607" : String).length := by
  refine ⟨rfl, by decide, ?_, by decide, by decide⟩
  decide

/-- C8 (amended): every minted token is the lowercase-hex rendering of the
random bytes drawn — 8 bytes (64 bits) in the stateful variant, 16 bytes
(128 bits) in the stateless one, so at least 64 bits of entropy — and the
token is the sole lookup key written to the session and decision tables. -/
theorem c8_token_lowercase_hex_of_entropy (bs : List Nat)
    (hb : ∀ b ∈ bs, b < 256)
    (hlen : bs.length = tokenBytesA ∨ bs.length = tokenBytesB) :
    (bytesToHex bs).length = 2 * bs.length ∧
    (bytesToHex bs).data.all isHexDigitChar = true ∧
    64 ≤ 8 * bs.length ∧
    (∀ (sessions : Table SessionEntry) (phone sig : String) (ttl now : Nat),
      mapGet (setSession sessions (bytesToHex bs) phone sig ttl now) (bytesToHex bs)
        = some ⟨phone, sig, now + ttl⟩) ∧
    (∀ (store : Table ResultEntry) (r : String) (ttl now : Nat),
      mapGet (setResult store (bytesToHex bs) r ttl now) (bytesToHex bs)
        = some ⟨r, now + ttl⟩) := by
  refine ⟨bytesToHex_length bs, bytesToHex_all_hex bs hb, ?_, ?_, ?_⟩
  · rcases hlen with h | h <;> rw [h] <;> decide
  · intro sessions phone sig ttl now
    exact mapGet_mapSet_self sessions (bytesToHex bs) _
  · intro store r ttl now
    exact mapGet_mapSet_self store (bytesToHex bs) _

/-- Witness for the amended C8 on an 8-byte draw. -/
theorem c8_token_lowercase_hex_witness :
    (bytesToHex [0, 1, 2, 3, 4, 5, 6, 7]).length = 2 * 8 :=
  (by decide : ([0, 1, 2, 3, 4, 5, 6, 7] : List Nat).length = 8) ▸
    (c8_token_lowercase_hex_of_entropy [0, 1, 2, 3, 4, 5, 6, 7]
      (by decide) (Or.inl (by decide))).1

/-- C9: the tag `/notify` issues is `HMAC-SHA256(secretKey, token ++ "|" ++
subject)` rendered as hex; it is a pure function of (secret, token, subject) —
the webhook's expected-tag recomputation is the very same formula, so a tag
issued by `/notify` always passes the webhook's constant-time comparison —
and at concrete inputs a tag computed over a different subject or with a
different key differs from the issued tag. -/
theorem c9_tag_formula_deterministic :
    (∀ k t p, notifySig k t p = hmacSha256Hex k (t ++ "|" ++ p)) ∧
    (∀ k t p, webhookExpectedSig k t p = notifySig k t p) ∧
    (∀ k t p, timingSafeEqual (notifySig k t p) (webhookExpectedSig k t p) = .ok true) ∧
    notifySig "k" "74" "alice" ≠ notifySig "k" "74" "bob" ∧
    notifySig "k" "74" "alice" ≠ notifySig "k2" "74" "alice" := by
  refine ⟨fun k t p => rfl, fun k t p => rfl,
    fun k t p => timingSafeEqual_self (notifySig k t p), ?_, ?_⟩
  · decide
  · decide

/-- C10: in the stateful variant the webhook's signature check is vacuous.
Under the invariant `/notify` establishes — each stored session's `sig` is the
tag of its own token and phone — an admin callback `action|token` never takes
the `⚠️ Invalid signature` branch: when the session exists the handler
proceeds straight to the action dispatch, and when it does not the handler
answers `Session expired or not found`.  Verification depends only on the
session's existence, not on any payload field beyond the token. -/
theorem c10_webhookA_sig_check_vacuous (cfg : Config) (store : Table ResultEntry)
    (sessions : Table SessionEntry) (cb : CallbackQuery) (now : Nat)
    (action token d : String)
    (hinv : sessionsInv cfg sessions)
    (hchat : cb.chatId = some cfg.adminChatId)
    (hdata : cb.data = some d)
    (hsplit : jsSplit d '|' = [action, token]) :
    Effect.answerCallback cb.id "⚠️ Invalid signature" true ∉
      (webhookA cfg store sessions ⟨some cb⟩ now).1 ∧
    (∀ s s', getSession sessions token now = (some s, s') →
      webhookA cfg store sessions ⟨some cb⟩ now =
        (Effect.respondOk :: (dispatchA cfg store cb action token now).1,
         (dispatchA cfg store cb action token now).2.1, s',
         (dispatchA cfg store cb action token now).2.2)) ∧
    (∀ s', getSession sessions token now = (none, s') →
      webhookA cfg store sessions ⟨some cb⟩ now =
        ([.respondOk, .answerCallback cb.id "⚠️ Session expired or not found" true],
         store, s', none)) := by
  have hmain : ∀ s s', getSession sessions token now = (some s, s') →
      webhookA cfg store sessions ⟨some cb⟩ now =
        (Effect.respondOk :: (dispatchA cfg store cb action token now).1,
         (dispatchA cfg store cb action token now).2.1, s',
         (dispatchA cfg store cb action token now).2.2) := by
    intro s s' hget
    exact webhookA_verified_dispatch cfg store sessions cb now action token d s s'
      hchat hdata hsplit hget
      (hinv token s (getSession_some_mapGet sessions token now s s' hget))
  have hexpired : ∀ s', getSession sessions token now = (none, s') →
      webhookA cfg store sessions ⟨some cb⟩ now =
        ([.respondOk, .answerCallback cb.id "⚠️ Session expired or not found" true],
         store, s', none) :=
    fun s' hget => webhookA_session_missing cfg store sessions cb now action token d s'
      hchat hdata hsplit hget
  refine ⟨?_, hmain, hexpired⟩
  cases hget : getSession sessions token now with
  | mk os s' =>
    cases os with
    | none =>
      rw [hexpired s' hget]
      intro hmem
      simp only [List.mem_cons, List.not_mem_nil, or_false] at hmem
      rcases hmem with h1 | h1
      · exact Effect.noConfusion h1
      · have h2 := h1
        injection h2 with _ hmsg _
        exact absurd hmsg (by decide)
    | some s =>
      rw [hmain s s' hget]
      intro hmem
      simp only [List.mem_cons] at hmem
      rcases hmem with h1 | h1
      · exact Effect.noConfusion h1
      · revert h1
        unfold dispatchA
        split <;> simp

/-- Witness for C10: on a concrete admin callback the `Invalid signature`
answer does not occur. -/
theorem c10_webhookA_sig_check_vacuous_witness :
    Effect.answerCallback "cb1" "⚠️ Invalid signature" true ∉
      (webhookA ⟨"k", "9", 600000⟩ [] []
        ⟨some ⟨"cb1", some "send_otp|t0", some "9", none⟩⟩ 5).1 :=
  (c10_webhookA_sig_check_vacuous ⟨"k", "9", 600000⟩ [] []
    ⟨"cb1", some "send_otp|t0", some "9", none⟩ 5 "send_otp" "t0" "send_otp|t0"
    (by intro t e h; simp [mapGet, List.find?] at h)
    rfl rfl (by decide)).1

end Walletii
